import Mathlib

/-!
Habit tracker: state engine and service layer, shallowly embedded.

This development embeds the habit-tracker's state-transition logic and its
service-level operations in Lean and proves (or refutes) the specification's
claims about them.

Calendar days are modelled as integers (days since an epoch): the source
stores dates as ISO `YYYY-MM-DD` strings compared by string equality, and
ISO date strings are in bijection with day numbers, with "yesterday"
(`Date.setDate(getDate() - 1)`) corresponding to subtracting one.
A habit's `streak` is a JavaScript number that is only ever created as `0`,
incremented, or decremented when positive, so it is modelled as `Nat`
(note `Nat` truncated subtraction makes `s - 1` coincide with
`Math.max(0, s - 1)`).
-/

namespace HabitTracker

/-- A habit record, as stored by both backends and held by the client
(`src/unnamed/part_000`, `interface Habit`). -/
structure Habit where
  id : Int
  name : String
  streak : Nat
  completed_today : Bool
  last_completed_date : Option Int
  deriving DecidableEq

/-- The JSON-file backend's toggle state transition
(`src/server/index.js`, `PATCH /api/habits/:id/toggle`, lines 120-147),
with the two wall-clock reads (`today` and `yesterdayStr`) passed in as
explicit parameters. -/
def jsonTransition (h : Habit) (today yesterday : Int) : Habit :=
  let newCompletedToday := !h.completed_today
  if newCompletedToday then
    let newStreak :=
      if h.last_completed_date = some yesterday then h.streak + 1
      else if h.last_completed_date ≠ some today then 1
      else h.streak
    { h with completed_today := newCompletedToday, streak := newStreak,
             last_completed_date := some today }
  else
    if h.last_completed_date = some today then
      { h with completed_today := newCompletedToday,
               streak := if h.streak > 0 then h.streak - 1 else h.streak,
               last_completed_date := none }
    else
      { h with completed_today := newCompletedToday }

/-- The SQLite backend's toggle state transition
(`src/unnamed/part_001`, `PATCH /api/habits/:id/toggle`, lines 119-151):
the marking branch wraps the streak update in an extra
`if (last_completed_date !== today)` guard. -/
def sqliteTransition (h : Habit) (today yesterday : Int) : Habit :=
  let newCompletedToday := !h.completed_today
  if newCompletedToday then
    let newStreak :=
      if h.last_completed_date ≠ some today then
        if h.last_completed_date = some yesterday then h.streak + 1
        else if h.last_completed_date ≠ some today then 1
        else h.streak
      else h.streak
    { h with completed_today := newCompletedToday, streak := newStreak,
             last_completed_date := some today }
  else
    if h.last_completed_date = some today then
      { h with completed_today := newCompletedToday,
               streak := if h.streak > 0 then h.streak - 1 else h.streak,
               last_completed_date := none }
    else
      { h with completed_today := newCompletedToday }

/-- The server transition on a given day `d`: in the source both `today` and
`yesterday` are read from the same wall clock, so `yesterday = d - 1`. -/
def serverTransition (h : Habit) (d : Int) : Habit :=
  jsonTransition h d (d - 1)

/-- The client's optimistic local toggle transition
(`src/unnamed/part_000`, `toggleHabit`, lines 62-74): flips the flag and
does a simplistic `+1` / `Math.max(0, streak - 1)`, leaving
`last_completed_date` untouched. -/
def clientToggle (h : Habit) : Habit :=
  let wasCompleted := h.completed_today
  { h with completed_today := !wasCompleted,
           streak := if !wasCompleted then h.streak + 1
                     else max 0 (h.streak - 1) }

/-- A freshly created habit (`POST /api/habits`, `src/server/index.js`
lines 88-94): zeroed streak, not completed, no completion date. -/
def freshHabit (id : Int) (name : String) : Habit :=
  { id := id, name := name, streak := 0, completed_today := false,
    last_completed_date := none }

/-- Apply a sequence of server toggles, one wall-clock date per call. -/
def runToggles (h : Habit) (ds : List Int) : Habit :=
  ds.foldl (fun acc d => serverTransition acc d) h

/-- The body of the toggle route over the stored list
(`src/server/index.js` lines 109-150): find the first habit with the given
id (`findIndex`), replace it in place with the transitioned record, and
return the updated record; `none` models the 404 path, which returns
before any write. -/
def toggleList (habits : List Habit) (id : Int) (d : Int) :
    Option (List Habit × Habit) :=
  match habits with
  | [] => none
  | h :: rest =>
    if h.id = id then
      let u := serverTransition h d
      some (u :: rest, u)
    else
      match toggleList rest id d with
      | none => none
      | some (rest2, u) => some (h :: rest2, u)

/-- The toggle endpoint's effect on the store: on 404 (`none` response)
the stored list is returned unwritten, otherwise the updated list is
persisted (`writeData`) and the updated habit returned. -/
def toggleEndpoint (habits : List Habit) (id : Int) (d : Int) :
    List Habit × Option Habit :=
  match toggleList habits id d with
  | none => (habits, none)
  | some (hs, u) => (hs, some u)

/-- The JavaScript `String.prototype.trim` primitive: strip whitespace
from both ends of the string (modelled structurally so that it is
kernel-computable). -/
def trimName (s : String) : String :=
  String.mk
    (((s.data.dropWhile Char.isWhitespace).reverse.dropWhile
        Char.isWhitespace).reverse)

/-- The zod habit schema (`habitSchema` in both backends):
`z.string().min(1, ...).max(50, ...).trim()`. zod runs the pieces in
order, so the length bounds are checked on the RAW string and the trim is
a transform applied afterwards to the accepted value. `none` models a
failed `safeParse` (the 400 path). -/
def validateName (name : String) : Option String :=
  if 1 ≤ name.length ∧ name.length ≤ 50 then some (trimName name) else none

/-- `POST /api/habits` (`src/server/index.js` lines 78-104): validate,
then append a fresh habit with the validated name; on validation failure
respond 400 before any read or write. -/
def postHabit (habits : List Habit) (rawName : String) (newId : Int) :
    Option (List Habit × Habit) :=
  match validateName rawName with
  | none => none
  | some nm =>
    let newHabit := freshHabit newId nm
    some (habits ++ [newHabit], newHabit)

/-! Helper lemmas: closed-form descriptions of the two branches of the
server transition, and the fields it never touches. -/

/-- Marking branch: from a not-completed habit, the server transition sets
the flag, stamps today, and picks the streak by comparing the stored date
with yesterday and today. -/
lemma serverTransition_mark (h : Habit) (d : Int)
    (hc : h.completed_today = false) :
    serverTransition h d =
      { h with completed_today := true,
               streak := if h.last_completed_date = some (d - 1) then
                           h.streak + 1
                         else if h.last_completed_date = some d then h.streak
                         else 1,
               last_completed_date := some d } := by
  obtain ⟨i, nm, s, c, l⟩ := h
  simp only at hc
  subst hc
  simp only [serverTransition, jsonTransition, Bool.not_false, if_true]
  split_ifs <;> simp_all

/-- Unmarking branch: from a completed habit, the server transition clears
the flag; if the stored date is today it also decrements the streak
(clamped at zero) and clears the date. -/
lemma serverTransition_unmark (h : Habit) (d : Int)
    (hc : h.completed_today = true) :
    serverTransition h d =
      if h.last_completed_date = some d then
        { h with completed_today := false, streak := h.streak - 1,
                 last_completed_date := none }
      else
        { h with completed_today := false } := by
  obtain ⟨i, nm, s, c, l⟩ := h
  simp only at hc
  subst hc
  simp only [serverTransition, jsonTransition, Bool.not_true, if_neg]
  split_ifs <;> simp_all

/-- The server transition never touches `id` or `name`. -/
lemma serverTransition_id_name (h : Habit) (d : Int) :
    (serverTransition h d).id = h.id ∧ (serverTransition h d).name = h.name := by
  simp only [serverTransition, jsonTransition]
  split_ifs <;> simp

/-- One toggle step preserves the one-directional invariant
`streak = 0 → last_completed_date = none`. -/
lemma streak_zero_null_step (h : Habit) (d : Int)
    (hi : h.streak = 0 → h.last_completed_date = none) :
    (serverTransition h d).streak = 0 →
      (serverTransition h d).last_completed_date = none := by
  obtain ⟨i, nm, s, c, l⟩ := h
  dsimp only at hi
  cases c
  · rw [serverTransition_mark _ d rfl]
    dsimp only
    split_ifs with h1 h2
    · intro hz; exact hz.elim
    · intro hz; exact absurd h2 (by simp [hi hz])
    · intro hz; exact hz.elim
  · rw [serverTransition_unmark _ d rfl]
    dsimp only
    split_ifs with h1
    · intro _; rfl
    · exact hi

/-- The invariant `streak = 0 → last_completed_date = none` holds after any
toggle sequence, provided it held at the start. -/
lemma streak_zero_null_run (ds : List Int) (h : Habit)
    (hi : h.streak = 0 → h.last_completed_date = none) :
    (runToggles h ds).streak = 0 →
      (runToggles h ds).last_completed_date = none := by
  induction ds generalizing h with
  | nil => exact hi
  | cons d ds ih =>
      exact ih (serverTransition h d) (streak_zero_null_step h d hi)

/-- C1 (counterexample): starting from a fresh habit, toggle on day 0, then
toggle three times on day 1 (undo the stale day-0 completion, mark day 1 —
streak becomes 2 since day 0 is its yesterday — then undo day 1): the
result has `streak = 1` with `last_completed_date = null`, so the claimed
equivalence `last_completed_date = null ↔ streak = 0` fails. -/
theorem last_null_iff_streak_zero_cex :
    ¬ ((runToggles (freshHabit 1 "a") [0, 1, 1, 1]).last_completed_date
          = none ↔
        (runToggles (freshHabit 1 "a") [0, 1, 1, 1]).streak = 0) := by
  decide

/-- C1 (amended): after any sequence of toggles on a freshly created habit,
`streak = 0` implies `last_completed_date = null`; the converse direction of
the claimed equivalence fails (see the counterexample). -/
theorem streak_zero_imp_last_null (ds : List Int) (i : Int) (nm : String) :
    (runToggles (freshHabit i nm) ds).streak = 0 →
      (runToggles (freshHabit i nm) ds).last_completed_date = none :=
  streak_zero_null_run ds (freshHabit i nm) (fun _ => rfl)

/-- Witness for C1's amended theorem at the concrete sequence
`[0, 0]` (mark day 0 then undo it, ending with streak 0). -/
theorem streak_zero_imp_last_null_wit :
    (runToggles (freshHabit 1 "a") [0, 0]).last_completed_date = none :=
  streak_zero_imp_last_null [0, 0] 1 "a" (by decide)

/-- C2 (counterexample): habit `{streak 3, not completed, last day 9}`
toggled twice on day 10 (mark then same-day undo) ends with
`last_completed_date = null`, not the original day 9, so the round trip
does not restore the pre-toggle state. -/
theorem same_day_undo_restore_cex :
    ¬ ((serverTransition (serverTransition
            ⟨1, "r", 3, false, some 9⟩ 10) 10).streak =
          (3 : Nat) ∧
        (serverTransition (serverTransition
            ⟨1, "r", 3, false, some 9⟩ 10) 10).last_completed_date =
          some 9) := by
  decide

/-- C2 (amended): toggling a not-completed habit done and then undone on
the same day `d` always ends not-completed with `last_completed_date =
null`; the streak returns to its pre-toggle value exactly in the
consecutive-run case (`last_completed_date = d - 1`), drops by one
(clamped at zero) when the stored date was already `d`, and drops to zero
otherwise — so the exact pre-toggle `streak` and `last_completed_date`
are both restored only for a never-completed habit. -/
theorem same_day_mark_undo (h : Habit) (d : Int)
    (hc : h.completed_today = false) :
    (serverTransition (serverTransition h d) d).completed_today = false ∧
    (serverTransition (serverTransition h d) d).last_completed_date = none ∧
    (serverTransition (serverTransition h d) d).streak =
      (if h.last_completed_date = some (d - 1) then h.streak
       else if h.last_completed_date = some d then h.streak - 1
       else 0) := by
  rw [serverTransition_mark h d hc]
  rw [serverTransition_unmark _ d (by simp)]
  simp only [if_pos rfl]
  refine ⟨rfl, rfl, ?_⟩
  split_ifs <;> simp

/-- Witness for C2's amended theorem at the concrete habit
`{streak 3, not completed, last day 9}` and day 10. -/
theorem same_day_mark_undo_wit :
    (serverTransition (serverTransition
        ⟨1, "r", 3, false, some 9⟩ 10) 10).completed_today = false ∧
    (serverTransition (serverTransition
        ⟨1, "r", 3, false, some 9⟩ 10) 10).last_completed_date = none ∧
    (serverTransition (serverTransition
        ⟨1, "r", 3, false, some 9⟩ 10) 10).streak =
      (if (⟨1, "r", 3, false, some 9⟩ : Habit).last_completed_date
            = some (10 - 1) then
         (⟨1, "r", 3, false, some 9⟩ : Habit).streak
       else if (⟨1, "r", 3, false, some 9⟩ : Habit).last_completed_date
            = some 10 then
         (⟨1, "r", 3, false, some 9⟩ : Habit).streak - 1
       else 0) :=
  same_day_mark_undo ⟨1, "r", 3, false, some 9⟩ 10 rfl

/-- C3 (confirmed): marking a not-completed habit done on day `d` sets the
flag, stamps `d`, and sets the streak to `streak + 1` when the stored date
is `d - 1`, leaves it unchanged when the stored date is already `d`, and
resets it to `1` in every other case (including no stored date). -/
theorem mark_transition_cases (h : Habit) (d : Int)
    (hc : h.completed_today = false) :
    (serverTransition h d).completed_today = true ∧
    (serverTransition h d).last_completed_date = some d ∧
    (serverTransition h d).streak =
      (if h.last_completed_date = some (d - 1) then h.streak + 1
       else if h.last_completed_date = some d then h.streak
       else 1) := by
  rw [serverTransition_mark h d hc]
  exact ⟨rfl, rfl, rfl⟩

/-- Witness for C3 at the spec's scenario: `{streak 3, last day 9}` toggled
on day 10 (so the stored date is yesterday). -/
theorem mark_transition_cases_wit :
    (serverTransition ⟨2, "run", 3, false, some 9⟩ 10).completed_today
        = true ∧
    (serverTransition ⟨2, "run", 3, false, some 9⟩ 10).last_completed_date
        = some 10 ∧
    (serverTransition ⟨2, "run", 3, false, some 9⟩ 10).streak =
      (if (⟨2, "run", 3, false, some 9⟩ : Habit).last_completed_date
            = some (10 - 1) then
         (⟨2, "run", 3, false, some 9⟩ : Habit).streak + 1
       else if (⟨2, "run", 3, false, some 9⟩ : Habit).last_completed_date
            = some 10 then
         (⟨2, "run", 3, false, some 9⟩ : Habit).streak
       else 1) :=
  mark_transition_cases ⟨2, "run", 3, false, some 9⟩ 10 rfl

/-- C4 (confirmed): toggling a completed habit on day `d` clears the flag;
if the stored date is `d` it decrements the streak (clamped at zero — for
`Nat` streaks truncated subtraction is exactly `max(0, streak - 1)`) and
clears the date, and otherwise leaves both fields unchanged. -/
theorem unmark_transition_cases (h : Habit) (d : Int)
    (hc : h.completed_today = true) :
    (serverTransition h d).completed_today = false ∧
    (h.last_completed_date = some d →
      (serverTransition h d).streak = h.streak - 1 ∧
      (serverTransition h d).last_completed_date = none) ∧
    (h.last_completed_date ≠ some d →
      (serverTransition h d).streak = h.streak ∧
      (serverTransition h d).last_completed_date =
        h.last_completed_date) := by
  rw [serverTransition_unmark h d hc]
  split_ifs with h1
  · exact ⟨rfl, fun _ => ⟨rfl, rfl⟩, fun hne => absurd h1 hne⟩
  · exact ⟨rfl, fun he => absurd he h1, fun _ => ⟨rfl, rfl⟩⟩

/-- Witness for C4 at the spec's scenario: `{streak 5, completed, last day
d}` undone on day `d` gives streak 4 and a cleared date. -/
theorem unmark_transition_cases_wit :
    (serverTransition ⟨3, "gym", 5, true, some 20⟩ 20).streak = 5 - 1 ∧
    (serverTransition ⟨3, "gym", 5, true, some 20⟩ 20).last_completed_date
      = none :=
  (unmark_transition_cases ⟨3, "gym", 5, true, some 20⟩ 20 rfl).2.1 rfl

/-- C5 (code bug evidence): the single space is a whitespace-only name of
length 1, so it passes the zod length checks (which run BEFORE the `.trim()`
transform) and `POST /api/habits` persists a habit whose name is the empty
string — the claimed 400 rejection of all-whitespace names does not
happen. -/
theorem whitespace_name_accepted :
    validateName " " = some "" ∧
    postHabit [] " " 7 = some ([freshHabit 7 ""], freshHabit 7 "") := by
  decide

/-- C6 (counterexample): for habit `{streak 3, not completed, last day 0}`
toggled on day 10, the client's optimistic transition predicts streak 4 and
leaves the stored date at day 0, while the server computes streak 1 and
stamps day 10 — the two transitions disagree. -/
theorem client_server_agreement_cex :
    ¬ ((clientToggle ⟨1, "x", 3, false, some 0⟩).streak =
          (serverTransition ⟨1, "x", 3, false, some 0⟩ 10).streak ∧
        (clientToggle ⟨1, "x", 3, false, some 0⟩).completed_today =
          (serverTransition ⟨1, "x", 3, false, some 0⟩ 10).completed_today ∧
        (clientToggle ⟨1, "x", 3, false, some 0⟩).last_completed_date =
          Habit.last_completed_date
            (serverTransition ⟨1, "x", 3, false, some 0⟩ 10)) := by
  decide

/-- C6 (amended): the client's optimistic toggle agrees with the server's
transition on `completed_today` for every habit and date, but not in
general on `streak` or `last_completed_date` (the client uses a simplistic
plus-or-minus-one streak and never touches the date; the server's response
overwrites the prediction). -/
theorem client_server_completed_agree (h : Habit) (d : Int) :
    (clientToggle h).completed_today =
      (serverTransition h d).completed_today := by
  obtain ⟨i, nm, s, c, l⟩ := h
  cases c
  · simp [clientToggle, serverTransition, jsonTransition]
  · simp only [clientToggle, serverTransition, jsonTransition]
    split_ifs <;> rfl

/-- C7 (confirmed): marking a habit done on day `d` and then marking it
done again the next day (`completed_today` having been cleared by the day
rollover — the stored `last_completed_date` is then yesterday) increments
the streak by exactly one; marking it again on day `d + 2` instead (a
skipped day) resets the streak to 1. -/
theorem consecutive_day_streak (h : Habit) (d : Int)
    (hc : h.completed_today = false) :
    (serverTransition
        { serverTransition h d with completed_today := false }
        (d + 1)).streak = (serverTransition h d).streak + 1 ∧
    (serverTransition
        { serverTransition h d with completed_today := false }
        (d + 2)).streak = 1 := by
  rw [serverTransition_mark h d hc]
  constructor
  · rw [serverTransition_mark _ (d + 1) rfl]
    dsimp only
    rw [if_pos (by congr 1; omega)]
  · rw [serverTransition_mark _ (d + 2) rfl]
    dsimp only
    rw [if_neg (by simp only [Option.some.injEq]; omega),
        if_neg (by simp only [Option.some.injEq]; omega)]

/-- Witness for C7 at a fresh habit and day 0: the second-day streak is 2,
and the skipped-day streak is 1. -/
theorem consecutive_day_streak_wit :
    (serverTransition
        { serverTransition (freshHabit 1 "a") 0 with completed_today := false }
        (0 + 1)).streak = (serverTransition (freshHabit 1 "a") 0).streak + 1 ∧
    (serverTransition
        { serverTransition (freshHabit 1 "a") 0 with completed_today := false }
        (0 + 2)).streak = 1 :=
  consecutive_day_streak (freshHabit 1 "a") 0 rfl

/-- The route body finds no habit to update exactly when no stored habit
has the requested id. -/
lemma toggleList_eq_none_iff (habits : List Habit) (id d : Int) :
    toggleList habits id d = none ↔ ∀ h ∈ habits, h.id ≠ id := by
  induction habits with
  | nil => simp [toggleList]
  | cons h rest ih =>
      by_cases hid : h.id = id
      · simp [toggleList, hid]
      · simp only [toggleList, if_neg hid]
        cases hrec : toggleList rest id d with
        | none => simp_all
        | some p => simp_all

/-- C8 (confirmed): the toggle endpoint responds 404 (`none`) exactly when
no stored habit has the requested id, and in that case the stored list is
returned untouched (the handler returns before `writeData`). -/
theorem toggle_notfound_iff (habits : List Habit) (id d : Int) :
    ((toggleEndpoint habits id d).2 = none ↔ ∀ h ∈ habits, h.id ≠ id) ∧
    ((toggleEndpoint habits id d).2 = none →
      (toggleEndpoint habits id d).1 = habits) := by
  unfold toggleEndpoint
  cases hrec : toggleList habits id d with
  | none =>
      refine ⟨?_, fun _ => rfl⟩
      simpa [hrec] using (toggleList_eq_none_iff habits id d).mp hrec
  | some p =>
      constructor
      · simp only [iff_false, ← toggleList_eq_none_iff habits id d, hrec]
        simp
      · simp

/-- Witness for C8 at a one-element store and an absent id: the response is
404 and the store is unchanged. -/
theorem toggle_notfound_iff_wit :
    (toggleEndpoint [freshHabit 1 "a"] 2 0).1 = [freshHabit 1 "a"] :=
  (toggle_notfound_iff [freshHabit 1 "a"] 2 0).2 (by decide)

/-- C9 (counterexample): when the two separate wall-clock reads produce
`yesterday = today` (the midnight straddle, here both day 0) and the habit
last completed today, the JSON backend takes its `last === yesterdayStr`
branch and increments the streak to 6, while the SQLite backend's outer
`last !== today` guard keeps the streak at 5 — the two transitions are not
extensionally equal over all date pairs. -/
theorem backend_transitions_cex :
    jsonTransition ⟨1, "x", 5, false, some 0⟩ 0 0 ≠
      sqliteTransition ⟨1, "x", 5, false, some 0⟩ 0 0 := by
  decide

/-- C9 (amended): for every habit and every pair of dates with
`yesterday ≠ today` (in particular the genuine pair `today - 1 day`), the
JSON-file and SQLite toggle transitions compute exactly the same record. -/
theorem backend_transitions_agree (h : Habit) (today yesterday : Int)
    (hd : yesterday ≠ today) :
    jsonTransition h today yesterday = sqliteTransition h today yesterday := by
  obtain ⟨i, nm, s, c, l⟩ := h
  cases c
  · simp only [jsonTransition, sqliteTransition, Bool.not_false, if_true]
    by_cases ht : l = some today <;> by_cases hy : l = some yesterday
    · rw [ht] at hy
      exact absurd (Option.some.inj hy).symm hd
    · simp [ht, hy, hd, Ne.symm hd]
    · simp [ht, hy, hd, Ne.symm hd]
    · simp [ht, hy, hd, Ne.symm hd]
  · rfl

/-- Witness for C9's amended theorem at a concrete habit and the genuine
pair `today = 1`, `yesterday = 0`. -/
theorem backend_transitions_agree_wit :
    jsonTransition ⟨1, "x", 5, false, some 0⟩ 1 0 =
      sqliteTransition ⟨1, "x", 5, false, some 0⟩ 1 0 :=
  backend_transitions_agree ⟨1, "x", 5, false, some 0⟩ 1 0 (by decide)

/-- C10 (confirmed): whenever the toggle route finds its habit, the
updated record keeps the old `id` and `name` (only the three completion
fields may change, since it applies the server transition), it replaces
the old record at its position, and every other position of the store is
exactly as it was. -/
theorem toggle_frame (habits : List Habit) (id d : Int)
    (hs : List Habit) (u : Habit)
    (heq : toggleList habits id d = some (hs, u)) :
    ∃ (n : Nat) (h₀ : Habit), habits[n]? = some h₀ ∧
      u.id = h₀.id ∧ u.name = h₀.name ∧ u = serverTransition h₀ d ∧
      hs[n]? = some u ∧ hs.length = habits.length ∧
      ∀ j, j ≠ n → hs[j]? = habits[j]? := by
  induction habits generalizing hs u with
  | nil => simp [toggleList] at heq
  | cons h rest ih =>
      by_cases hid : h.id = id
      · simp only [toggleList, if_pos hid, Option.some.injEq,
          Prod.mk.injEq] at heq
        obtain ⟨rfl, rfl⟩ := heq
        refine ⟨0, h, by simp, (serverTransition_id_name h d).1,
          (serverTransition_id_name h d).2, rfl, by simp, by simp, ?_⟩
        intro j hj
        cases j with
        | zero => exact absurd rfl hj
        | succ k => simp
      · simp only [toggleList, if_neg hid] at heq
        cases hrec : toggleList rest id d with
        | none => rw [hrec] at heq; exact Option.noConfusion heq
        | some p =>
            obtain ⟨rest2, u0⟩ := p
            rw [hrec] at heq
            simp only [Option.some.injEq, Prod.mk.injEq] at heq
            obtain ⟨rfl, rfl⟩ := heq
            obtain ⟨n, h₀, hget, hid0, hname, htrans, hgetu, hlen, hframe⟩ :=
              ih rest2 u0 hrec
            refine ⟨n + 1, h₀, by simpa using hget, hid0, hname, htrans,
              by simpa using hgetu, by simp [hlen], ?_⟩
            intro j hj
            cases j with
            | zero => simp
            | succ k =>
                have hkn : k ≠ n := fun hkn => hj (by rw [hkn])
                simpa using hframe k hkn

/-- Witness for C10 at a two-element store, toggling id 2 on day 7. -/
theorem toggle_frame_wit :
    ∃ (n : Nat) (h₀ : Habit),
      ([⟨1, "a", 0, false, none⟩, ⟨2, "b", 4, true, some 7⟩] :
          List Habit)[n]? = some h₀ ∧
      (⟨2, "b", 3, false, none⟩ : Habit).id = h₀.id ∧
      (⟨2, "b", 3, false, none⟩ : Habit).name = h₀.name ∧
      (⟨2, "b", 3, false, none⟩ : Habit) = serverTransition h₀ 7 ∧
      ([⟨1, "a", 0, false, none⟩, ⟨2, "b", 3, false, none⟩] :
          List Habit)[n]? = some ⟨2, "b", 3, false, none⟩ ∧
      ([⟨1, "a", 0, false, none⟩, ⟨2, "b", 3, false, none⟩] :
          List Habit).length =
        ([⟨1, "a", 0, false, none⟩, ⟨2, "b", 4, true, some 7⟩] :
          List Habit).length ∧
      ∀ j, j ≠ n →
        ([⟨1, "a", 0, false, none⟩, ⟨2, "b", 3, false, none⟩] :
            List Habit)[j]? =
          ([⟨1, "a", 0, false, none⟩, ⟨2, "b", 4, true, some 7⟩] :
            List Habit)[j]? :=
  toggle_frame [⟨1, "a", 0, false, none⟩, ⟨2, "b", 4, true, some 7⟩] 2 7
    [⟨1, "a", 0, false, none⟩, ⟨2, "b", 3, false, none⟩]
    ⟨2, "b", 3, false, none⟩ (by decide)

end HabitTracker
